import Mathlib

/-!
Shallow embedding of the iced-app-template repository
(crates/{{project-name}}): the application shell's message dispatch,
window registry, theming, session persistence, and external-command
boundary, translated from the Rust source files

  src/crates/{{project-name}}/src/app/mod.rs
  src/crates/{{project-name}}/src/app/windows.rs
  src/crates/{{project-name}}/src/app/state.rs
  src/crates/{{project-name}}/src/app/session.rs
  src/crates/{{project-name}}/src/app/theme.rs
  src/crates/{{project-name}}/src/app/message.rs
  src/crates/{{project-name}}/src/app/features/mod.rs (register_features! Root)
  src/crates/{{project-name}}/src/app/features/root.rs
  src/crates/{{project-name}}/src/persistence/session.rs
  src/crates/{{project-name}}/src/platform/commands.rs

Modelling conventions:
- `iced::window::Id` (an opaque unique handle assigned by the toolkit on
  each `window::open` call) is modelled as `Nat`; the toolkit's fresh-id
  assignment is modelled by a `nextId` counter carried in `UiState`.
- The `Lookup` hash maps (`hashbrown::HashMap`) are modelled as
  association lists with hash-map insert semantics (replace the value if
  the key is present, otherwise add the binding).
- `iced::Task` values are modelled as lists of `Effect`s: the externally
  visible requests a task issues (close/open a toolkit window, deliver a
  follow-up message, persist the session, terminate the process, spawn a
  command).
- Logging (`tracing::...`) is side-effect-only; where a claim talks about
  a warning being logged, the modelled function returns a `Bool` flag for
  "warning emitted".
-/

/-- `ApplicationWindow` from app/windows.rs: the enum of window kinds.
The template registers exactly one kind, `Root`. -/
inductive ApplicationWindow where
  | Root
deriving DecidableEq, Repr

/-- `WindowInfo` from app/windows.rs. -/
structure WindowInfo where
  window_type : ApplicationWindow
  is_closed : Bool
deriving DecidableEq, Repr

/-- `iced::Theme` restricted to the variants named in app/theme.rs. -/
inductive Theme where
  | Light | Dark | Dracula | Nord
  | SolarizedLight | SolarizedDark
  | GruvboxLight | GruvboxDark
  | CatppuccinLatte | CatppuccinFrappe | CatppuccinMacchiato | CatppuccinMocha
  | TokyoNight | TokyoNightStorm | TokyoNightLight
  | KanagawaWave | KanagawaDragon | KanagawaLotus
  | Moonfly | Nightfly | Oxocarbon | Ferra
deriving DecidableEq, Repr

/-- `DEFAULT_THEME` from app/theme.rs. -/
def DEFAULT_THEME : String := "Light"

/-- `default_themes()` from app/theme.rs: the static theme catalog. -/
def default_themes : List (String × Theme) :=
  [("Light", Theme.Light),
   ("Dark", Theme.Dark),
   ("Dracula", Theme.Dracula),
   ("Nord", Theme.Nord),
   ("Solarized Light", Theme.SolarizedLight),
   ("Solarized Dark", Theme.SolarizedDark),
   ("Gruvbox Light", Theme.GruvboxLight),
   ("Gruvbox Dark", Theme.GruvboxDark),
   ("Catppuccin Latte", Theme.CatppuccinLatte),
   ("Catppuccin Frappé", Theme.CatppuccinFrappe),
   ("Catppuccin Macchiato", Theme.CatppuccinMacchiato),
   ("Catppuccin Mocha", Theme.CatppuccinMocha),
   ("Tokyo Night", Theme.TokyoNight),
   ("Tokyo Night Storm", Theme.TokyoNightStorm),
   ("Tokyo Night Light", Theme.TokyoNightLight),
   ("Kanagawa Wave", Theme.KanagawaWave),
   ("Kanagawa Dragon", Theme.KanagawaDragon),
   ("Kanagawa Lotus", Theme.KanagawaLotus),
   ("Moonfly", Theme.Moonfly),
   ("Nightfly", Theme.Nightfly),
   ("Oxocarbon", Theme.Oxocarbon),
   ("Ferra", Theme.Ferra)]

/-- `ApplicationSession` from app/session.rs: the persisted preference blob. -/
structure ApplicationSession where
  theme_selected : Option String
deriving DecidableEq, Repr

/-- `Default for ApplicationSession` from app/session.rs. -/
def ApplicationSession.default : ApplicationSession := { theme_selected := none }

/-- `root::State` from app/features/root.rs (an empty struct in the template). -/
structure RootState where
deriving DecidableEq, Repr

/-- `root::Message` from app/features/root.rs: an enum with no variants. -/
inductive RootMessage where
deriving Repr

instance : DecidableEq RootMessage := fun m _ => nomatch m

/-- `FeatureMessage` generated by `register_features!` in app/features/mod.rs
(one constructor per registered feature; only `Root` is registered). -/
inductive FeatureMessage where
  | Root (m : RootMessage)
deriving DecidableEq, Repr

/-- `FeaturesState` generated by `register_features!` in app/features/mod.rs. -/
structure FeaturesState where
  root : RootState
deriving DecidableEq, Repr

/-- `WindowMessage` from app/message.rs. -/
inductive WindowMessage where
  | Close (id : Nat)
  | Open (w : ApplicationWindow)
  | InitializeMainWindow
deriving DecidableEq, Repr

/-- `SystemMessage` from app/message.rs. -/
inductive SystemMessage where
  | ExecuteCommand (cmd : String) (args : List String)
  | ExitApplication
deriving DecidableEq, Repr

/-- `AppMessage` from app/message.rs. -/
inductive AppMessage where
  | Window (m : WindowMessage)
  | System (m : SystemMessage)
  | Feature (m : FeatureMessage)
deriving DecidableEq, Repr

/-- `iced::window::Position` restricted to the variant used by
`register_features!` in app/features/mod.rs. -/
inductive WindowPosition where
  | Centered
deriving DecidableEq, Repr

/-- `UiState` from app/state.rs. `nextId` models the toolkit's fresh
window-identifier assignment (each `iced::window::open` yields a new
unique `Id`); it is not a field of the Rust struct but of the toolkit. -/
structure UiState where
  current_theme : String
  themes : List (String × Theme)
  windows : List (Nat × WindowInfo)
  nextId : Nat
deriving DecidableEq, Repr

/-- `Default for UiState` from app/state.rs. -/
def UiState.default : UiState :=
  { current_theme := DEFAULT_THEME
    themes := default_themes
    windows := []
    nextId := 0 }

/-- `ApplicationState` from app/state.rs. -/
structure ApplicationState where
  ui : UiState
  features : FeaturesState
deriving DecidableEq, Repr

/-- `Default for ApplicationState` (derived in app/state.rs). -/
def ApplicationState.default : ApplicationState :=
  { ui := UiState.default, features := { root := {} } }

/-- `Application` from app/mod.rs. -/
structure Application where
  session : ApplicationSession
  state : ApplicationState
deriving DecidableEq, Repr

/-- The externally visible requests issued by an `AppTask`
(`iced::Task<AppMessage>`): close/open a toolkit window, deliver a
follow-up message (`Task::done`), persist the session, terminate the
process (`iced::exit`), spawn an external command. -/
inductive Effect where
  | windowCloseRequest (id : Nat)
  | windowOpenRequest (w : ApplicationWindow) (size : Nat × Nat) (pos : WindowPosition)
  | message (m : AppMessage)
  | saveSession (s : ApplicationSession)
  | exitProcess
  | execCommand (cmd : String) (args : List String)
deriving DecidableEq, Repr

/-- `ApplicationWindow::default_size` generated by `register_features!`
(`Root => root { 768.0, 768.0, Centered }`); `iced::Size` is two `f32`
fields holding exact small integers, modelled as a pair of `Nat`. -/
def ApplicationWindow.default_size : ApplicationWindow → Nat × Nat
  | .Root => (768, 768)

/-- `ApplicationWindow.default_position` generated by `register_features!`. -/
def ApplicationWindow.default_position : ApplicationWindow → WindowPosition
  | .Root => .Centered

/-- Hash-map insert semantics for the modelled `Lookup` association list:
replace the value when the key is already bound, otherwise add the
binding (`state.ui.windows.insert(id, info)` in app/windows.rs). -/
def insertWindow (ws : List (Nat × WindowInfo)) (id : Nat) (info : WindowInfo) :
    List (Nat × WindowInfo) :=
  if ws.any (fun e => decide (e.1 = id)) then
    ws.map (fun e => if e.1 = id then (id, info) else e)
  else
    ws ++ [(id, info)]

/-- The registry mutation performed by `close_window` in app/windows.rs:
`if let Some(wnd_info) = state.ui.windows.get_mut(wnd_id) then
wnd_info.is_closed = true`. -/
def markClosed (ws : List (Nat × WindowInfo)) (id : Nat) : List (Nat × WindowInfo) :=
  ws.map (fun e => if e.1 = id then (e.1, { e.2 with is_closed := true }) else e)

/-- `close_window` from app/windows.rs: mark the registry entry for
`wnd_id` closed (if present), then return the task
`iced::window::close(id)` chained with
`Task::done(SystemMessage::ExitApplication)`. -/
def close_window (a : Application) (wnd_id : Nat) : Application × List Effect :=
  ({ a with state.ui.windows := markClosed a.state.ui.windows wnd_id },
   [Effect.windowCloseRequest wnd_id,
    Effect.message (AppMessage.System SystemMessage.ExitApplication)])

/-- `invoke_window` from app/windows.rs: request a new toolkit window
with the kind's static default size and position (icon loading is a
logged, non-semantic side effect and is not modelled) and insert a new
non-closed entry keyed by the freshly assigned identifier. -/
def invoke_window (a : Application) (w : ApplicationWindow) : Application × List Effect :=
  let id := a.state.ui.nextId
  ({ a with
      state.ui.windows := insertWindow a.state.ui.windows id { window_type := w, is_closed := false }
      state.ui.nextId := id + 1 },
   [Effect.windowOpenRequest w w.default_size w.default_position])

/-- The predicate on registry entries used by the `Open` handler in
app/mod.rs: an entry of kind `k` that is not closed. -/
def isOpenOf (k : ApplicationWindow) (e : Nat × WindowInfo) : Bool :=
  decide (e.2.window_type = k) && !e.2.is_closed

/-- The `open_windows` lookup built by the `Open` handler in app/mod.rs
(`filter_map` over non-closed entries, then `get(&window)`): the
identifier of a non-closed entry of the given kind, if any. -/
def findOpen (ws : List (Nat × WindowInfo)) (k : ApplicationWindow) : Option Nat :=
  (ws.find? (isOpenOf k)).map (fun e => e.1)

/-- The two mutable flags computed by the entry scan in
`exit_application` (app/windows.rs): `(main_window_closed, all_closed)`,
both starting `true`; each non-closed entry clears `all_closed`, and a
non-closed `Root`-kind entry also clears `main_window_closed`. -/
def exitFlags (ws : List (Nat × WindowInfo)) : Bool × Bool :=
  ws.foldl
    (fun acc e =>
      if e.2.is_closed = false then
        (if e.2.window_type = ApplicationWindow.Root then false else acc.1, false)
      else acc)
    (true, true)

/-- `exit_application` from app/windows.rs: if all entries are closed or
the Root-kind entries are all closed, save the session
(`save_current_session`) and terminate (`iced::exit()`); otherwise
`Task::none()`. The application state is only read, never modified. -/
def exit_application (sess : ApplicationSession) (ws : List (Nat × WindowInfo)) : List Effect :=
  let flags := exitFlags ws
  if flags.2 || flags.1 then [Effect.saveSession sess, Effect.exitProcess] else []

/-- `route_feature_update` generated by `register_features!`: dispatch a
feature message to its feature's update function. The only registered
feature is `root`, whose message enum has no variants, so the dispatch
is vacuous. -/
def route_feature_update (_st : FeaturesState) (m : FeatureMessage) :
    FeaturesState × List Effect :=
  match m with
  | .Root rm => nomatch rm

/-- `Application::update` from app/mod.rs: dispatch on the message tag,
returning the new application value and the effects of the returned
task. -/
def Application.update (a : Application) (m : AppMessage) : Application × List Effect :=
  match m with
  | .Window (.Close wnd_id) => close_window a wnd_id
  | .Window (.Open w) =>
      match findOpen a.state.ui.windows w with
      | some open_window_id =>
          (a, [Effect.message (AppMessage.Window (WindowMessage.Close open_window_id))])
      | none => invoke_window a w
  | .Window .InitializeMainWindow => invoke_window a ApplicationWindow.Root
  | .System (.ExecuteCommand cmd args) => (a, [Effect.execCommand cmd args])
  | .System .ExitApplication => (a, exit_application a.session a.state.ui.windows)
  | .Feature fm =>
      let routed := route_feature_update a.state.features fm
      ({ a with state.features := routed.1 }, routed.2)

/-- `self.state.ui.themes.get(theme_name)` from `Application::theme`:
catalog lookup by theme name. -/
def lookupTheme (ts : List (String × Theme)) (name : String) : Option Theme :=
  (ts.find? (fun e => decide (e.1 = name))).map (fun e => e.2)

/-- `Application::theme` from app/mod.rs, returning the resolved theme
together with whether a warning is logged. The source reads the active
theme name from `state.features.settings.current_theme`; the registered
features declare no `settings` state, so the model keeps the active
theme name in `UiState.current_theme` as declared in app/state.rs (the
claims quantify over the name, not its location). On a catalog miss the
fallback is `Theme::Dark`, and the warning is logged inside
`if let Some(theme) = &self.session.theme_selected`. -/
def Application.theme (a : Application) : Theme × Bool :=
  match lookupTheme a.state.ui.themes a.state.ui.current_theme with
  | some t => (t, false)
  | none => (Theme.Dark, a.session.theme_selected.isSome)

/-- The UI element trees the core can produce: the per-kind feature view
(`root::view` wrapped by `ApplicationWindow::view`) and the
`container(text("Window not found"))` placeholder of `Application::view`. -/
inductive AppElement where
  | text (s : String)
  | container (child : AppElement)
  | rootView
deriving DecidableEq, Repr

/-- `ApplicationWindow::view` generated by `register_features!`:
delegate to the registered feature's view function. -/
def ApplicationWindow.view : ApplicationWindow → AppElement
  | .Root => AppElement.rootView

/-- `Application::view` from app/mod.rs: find the registry entry whose
key equals `id` and delegate to its kind's view; otherwise return the
"Window not found" placeholder. -/
def Application.view (a : Application) (id : Nat) : AppElement :=
  match a.state.ui.windows.find? (fun e => decide (e.1 = id)) with
  | some e => e.2.window_type.view
  | none => AppElement.container (AppElement.text "Window not found")

/-- The initial `Application` built by `Application::new` in app/mod.rs:
default state (empty window registry, seeded theme catalog) and the
loaded session. -/
def initialApp (sess : ApplicationSession) : Application :=
  { session := sess, state := ApplicationState.default }

/-- `Application::new` from app/mod.rs: load the session (absorbing
failure into the default), build the default state, and schedule
`Task::done(WindowMessage::InitializeMainWindow)` as the initial work
(the font-loading task built by `load_font` is dropped by
`let _ = ...`, so it contributes no effect). -/
def Application.new (loaded : Option ApplicationSession) : Application × List Effect :=
  (initialApp (loaded.getD ApplicationSession.default),
   [Effect.message (AppMessage.Window WindowMessage.InitializeMainWindow)])

/-- JSON values, the data written to and read from the session file by
persistence/session.rs through `serde_json`. -/
inductive Json where
  | null
  | bool (b : Bool)
  | num (n : Int)
  | str (s : String)
  | arr (xs : List Json)
  | obj (fields : List (String × Json))

/-- First binding of a field name in a JSON object, as `serde_json`
deserialization reads struct fields. -/
def jsonField (fields : List (String × Json)) (name : String) : Option Json :=
  (fields.find? (fun e => decide (e.1 = name))).map (fun e => e.2)

/-- `serde_json::to_string_pretty` applied to `ApplicationSession`, at
the JSON-value level (the derived `Serialize` of app/session.rs writes
one field, `theme_selected`, as `null` or a string). -/
def sessionToJson (s : ApplicationSession) : Json :=
  Json.obj [("theme_selected",
    match s.theme_selected with
    | none => Json.null
    | some t => Json.str t)]

/-- `serde_json::from_str` for `ApplicationSession`, at the JSON-value
level: the derived `Deserialize` of app/session.rs expects an object;
the `Option` field `theme_selected` is `none` when absent or `null`,
`some` for a string, and a type error otherwise. -/
def sessionFromJson (j : Json) : Option ApplicationSession :=
  match j with
  | Json.obj fields =>
      match jsonField fields "theme_selected" with
      | none => some { theme_selected := none }
      | some Json.null => some { theme_selected := none }
      | some (Json.str t) => some { theme_selected := some t }
      | some _ => none
  | _ => none

/-- The session file's state on disk, as observed by
persistence/session.rs: whether the application data directory exists,
and the file's contents — `none` when the file is missing or unreadable,
`some none` when it holds text that is not valid JSON, `some (some j)`
when it holds the JSON document `j`. -/
structure SessionFileSystem where
  dirExists : Bool
  file : Option (Option Json)

/-- `save` from persistence/session.rs: create the data directory if
absent and overwrite the session file with the serialized session (the
claims quantify over runs in which the write succeeds; I/O failure is
propagated to the caller and out of scope of the file-state model). -/
def save (_fs : SessionFileSystem) (sess : ApplicationSession) : SessionFileSystem :=
  { dirExists := true, file := some (some (sessionToJson sess)) }

/-- `load` from persistence/session.rs: `None` when the data directory
is missing, the file is missing or unreadable, or its contents fail to
deserialize; otherwise the parsed session. -/
def load (fs : SessionFileSystem) : Option ApplicationSession :=
  if fs.dirExists = false then none
  else
    match fs.file with
    | none => none
    | some none => none
    | some (some j) => sessionFromJson j

/-- `persistence::session::load().unwrap_or_default()` from
`Application::new` in app/mod.rs. -/
def loadOrDefault (fs : SessionFileSystem) : ApplicationSession :=
  (load fs).getD ApplicationSession.default

/-- The outcome of `process::Command::output()` once the child has been
spawned and waited for: exit status, captured stdout and captured
stderr (byte streams after `from_utf8_lossy`, modelled as strings). -/
structure ProcessOutput where
  status : Int
  stdout : String
  stderr : String
deriving DecidableEq, Repr

/-- The error string built by `execute_cmd` through
`other_error(format!("Failed to execute command: {stderr}"), "execute_cmd")`
(`Error::other` prepends `"{source} error: "`). -/
def execCmdError (stderr : String) : String :=
  "execute_cmd error: " ++ ("Failed to execute command: " ++ stderr)

/-- `execute_cmd` from platform/commands.rs, applied to the output of a
command that was spawned successfully: non-empty stderr is an error
carrying the stderr text; otherwise non-empty stdout is the result;
otherwise the empty string. The exit status is never inspected. -/
def execute_cmd (output : ProcessOutput) : Except String String :=
  if output.stderr ≠ "" then
    Except.error (execCmdError output.stderr)
  else if output.stdout ≠ "" then
    Except.ok output.stdout
  else
    Except.ok ""

/-- Every registry entry is closed ("all are Closed" in the spec's
`exit_check`). -/
def allClosed (ws : List (Nat × WindowInfo)) : Prop :=
  ∀ e ∈ ws, e.2.is_closed = true

/-- No non-closed `Root`-kind registry entry remains ("the Root-kind
entry is Closed"). -/
def noOpenRoot (ws : List (Nat × WindowInfo)) : Prop :=
  ∀ e ∈ ws, e.2.window_type = ApplicationWindow.Root → e.2.is_closed = true

/-- Boolean form of `allClosed`. -/
def allClosedB (ws : List (Nat × WindowInfo)) : Bool :=
  ws.all (fun e => e.2.is_closed)

/-- Boolean form of `noOpenRoot`. -/
def noOpenRootB (ws : List (Nat × WindowInfo)) : Bool :=
  ws.all (fun e => !(decide (e.2.window_type = ApplicationWindow.Root)) || e.2.is_closed)

/-- Number of non-closed registry entries of kind `k` (the quantity the
spec's registry invariant bounds by one). -/
def openCount (ws : List (Nat × WindowInfo)) (k : ApplicationWindow) : Nat :=
  (ws.filter (isOpenOf k)).length

/-- States reachable from the initial state by an arbitrary sequence of
`Application::update` calls (claim C3's reading: `update` accepts any
`AppMessage`). -/
inductive Reachable : Application → Prop where
  | init (sess : ApplicationSession) : Reachable (initialApp sess)
  | step {a : Application} (m : AppMessage) :
      Reachable a → Reachable (Application.update a m).1

/-- States reachable along runs as the program actually drives them:
`Application::new` schedules `InitializeMainWindow` exactly once, as the
first message; every later message comes from the close-request
subscription or from task follow-ups, none of which produce
`InitializeMainWindow` again. -/
inductive ReachableRun : Application → Prop where
  | start (sess : ApplicationSession) : ReachableRun (initialApp sess)
  | started (sess : ApplicationSession) :
      ReachableRun (Application.update (initialApp sess)
        (AppMessage.Window WindowMessage.InitializeMainWindow)).1
  | step {a : Application} (m : AppMessage)
      (hm : m ≠ AppMessage.Window WindowMessage.InitializeMainWindow) :
      ReachableRun a → ReachableRun (Application.update a m).1

/-- Concrete state for claim C1's witness: one non-closed Root window
registered under identifier 0. -/
def appC1 : Application :=
  { session := { theme_selected := none }
    state :=
      { ui :=
          { current_theme := "Light"
            themes := []
            windows := [(0, { window_type := ApplicationWindow.Root, is_closed := false })]
            nextId := 1 }
        features := { root := {} } } }

/-- Concrete state for claim C2's witness: one non-closed Root window
registered under identifier 0. -/
def appC2 : Application :=
  { session := { theme_selected := none }
    state :=
      { ui :=
          { current_theme := "Light"
            themes := []
            windows := [(0, { window_type := ApplicationWindow.Root, is_closed := false })]
            nextId := 1 }
        features := { root := {} } } }

/-- Concrete state for claim C4's witness. -/
def appC4 : Application :=
  { session := { theme_selected := none }
    state :=
      { ui :=
          { current_theme := "Light"
            themes := []
            windows := [(0, { window_type := ApplicationWindow.Root, is_closed := false })]
            nextId := 1 }
        features := { root := {} } } }

/-- Concrete state for claim C8's counterexample: the active theme name
is absent from the seeded catalog and the session records no selected
theme. -/
def appC8 : Application :=
  { session := { theme_selected := none }
    state :=
      { ui :=
          { current_theme := "nonexistent"
            themes := default_themes
            windows := []
            nextId := 0 }
        features := { root := {} } } }

/-- Concrete state for claim C8's amended witness: the active theme name
is absent from the seeded catalog and the session does record a selected
theme. -/
def appC8w : Application :=
  { session := { theme_selected := some "nonexistent" }
    state :=
      { ui :=
          { current_theme := "nonexistent"
            themes := default_themes
            windows := []
            nextId := 0 }
        features := { root := {} } } }

/-- Every window kind is `Root`: the enum has a single variant. -/
theorem applicationWindow_eq_Root (w : ApplicationWindow) : w = ApplicationWindow.Root := by
  cases w; rfl

/-- Marking the entry for `id` closed twice equals marking it once. -/
theorem markClosed_idem (ws : List (Nat × WindowInfo)) (id : Nat) :
    markClosed (markClosed ws id) id = markClosed ws id := by
  induction ws with
  | nil => rfl
  | cons e t ih =>
    by_cases h : e.1 = id <;> simp only [markClosed, List.map_cons] at ih ⊢ <;>
      simp [h, ih]

/-- Claim C4: Idempotence of close: for every application state and
identifier `id`, applying `close_window` twice with `id` yields the same
application value (hence the same window-registry state) as applying it
once, and the entry for `id`, when present, is marked closed; the
operation is total, so no error arises in either case. -/
theorem close_window_idempotent (a : Application) (id : Nat) :
    close_window (close_window a id).1 id = close_window a id ∧
    ∀ info : WindowInfo, (id, info) ∈ a.state.ui.windows →
      (id, { info with is_closed := true }) ∈ (close_window a id).1.state.ui.windows := by
  constructor
  · simp [close_window, markClosed_idem]
  · intro info hmem
    have h := List.mem_map_of_mem
      (fun e : Nat × WindowInfo =>
        if e.1 = id then (e.1, { e.2 with is_closed := true }) else e) hmem
    simpa [close_window, markClosed] using h

/-- Witness for claim C4's second conjunct at a concrete state. -/
theorem close_window_idempotent_witness :
    ((0 : Nat), ({ window_type := ApplicationWindow.Root, is_closed := false } : WindowInfo)) ∈
        appC4.state.ui.windows ∧
      ((0 : Nat), ({ window_type := ApplicationWindow.Root, is_closed := true } : WindowInfo)) ∈
        (close_window appC4 0).1.state.ui.windows :=
  ⟨by decide,
   (close_window_idempotent appC4 0).2
     { window_type := ApplicationWindow.Root, is_closed := false } (by decide)⟩

/-- Claim C5: Session round-trip: saving any representable session and
then loading yields the saved session, for every `theme_selected`
value including `none`. -/
theorem session_round_trip (fs : SessionFileSystem) (sess : ApplicationSession) :
    load (save fs sess) = some sess := by
  cases sess with
  | mk t => cases t <;> rfl

/-- Claim C6: Load-failure absorption: when the data directory is
missing, the session file is missing or unreadable, its contents are not
valid JSON, or they fail to deserialize as a session, startup session
loading (`load().unwrap_or_default()`) yields the default session with
`theme_selected = none`; no error is surfaced. -/
theorem load_failure_absorbed (fs : SessionFileSystem)
    (h : fs.dirExists = false ∨ fs.file = none ∨ fs.file = some none ∨
      ∃ j, fs.file = some (some j) ∧ sessionFromJson j = none) :
    loadOrDefault fs = { theme_selected := none } := by
  unfold loadOrDefault load
  rcases h with h | h | h | ⟨j, hj, hfail⟩ <;>
    simp [ApplicationSession.default, *]

/-- Witness for claim C6 at a concrete file state (directory present,
file missing). -/
theorem load_failure_absorbed_witness :
    ({ dirExists := true, file := none } : SessionFileSystem).file = none ∧
      loadOrDefault { dirExists := true, file := none } = { theme_selected := none } :=
  ⟨rfl, load_failure_absorbed _ (Or.inr (Or.inl rfl))⟩

/-- Claim C7: Unknown-window view fallback: for every application state
and identifier `id` bound by no registry entry, `view(id)` is the
"Window not found" placeholder element; the function is total, so it
never panics or errors. -/
theorem view_unknown_placeholder (a : Application) (id : Nat)
    (h : ∀ e ∈ a.state.ui.windows, e.1 ≠ id) :
    Application.view a id = AppElement.container (AppElement.text "Window not found") := by
  unfold Application.view
  have hfind : a.state.ui.windows.find? (fun e => decide (e.1 = id)) = none := by
    rw [List.find?_eq_none]
    intro e he
    simp [h e he]
  simp [hfind]

/-- Witness for claim C7 at the initial state (empty registry). -/
theorem view_unknown_placeholder_witness :
    (∀ e ∈ (initialApp ApplicationSession.default).state.ui.windows, e.1 ≠ 0) ∧
      Application.view (initialApp ApplicationSession.default) 0 =
        AppElement.container (AppElement.text "Window not found") :=
  ⟨by simp [initialApp, ApplicationState.default, UiState.default],
   view_unknown_placeholder _ 0
     (by simp [initialApp, ApplicationState.default, UiState.default])⟩

/-- Claim C9: `execute_cmd` returns an error exactly when the captured
stderr is non-empty, the error carries the stderr text, and otherwise it
returns `Ok` with the captured stdout (the empty string when there is no
stdout). -/
theorem execute_cmd_stderr_spec (o : ProcessOutput) :
    ((∃ e, execute_cmd o = Except.error e) ↔ o.stderr ≠ "") ∧
    (o.stderr ≠ "" → execute_cmd o = Except.error (execCmdError o.stderr)) ∧
    (o.stderr = "" → execute_cmd o = Except.ok o.stdout) := by
  by_cases hs : o.stderr = ""
  · by_cases ht : o.stdout = "" <;> simp [execute_cmd, hs, ht]
  · simp [execute_cmd, hs]

/-- Witness for claim C9 at a concrete output with non-empty stderr. -/
theorem execute_cmd_stderr_spec_witness :
    ({ status := 0, stdout := "", stderr := "boom" } : ProcessOutput).stderr ≠ "" ∧
      execute_cmd { status := 0, stdout := "", stderr := "boom" } =
        Except.error (execCmdError "boom") :=
  ⟨by decide, (execute_cmd_stderr_spec _).2.1 (by decide)⟩

/-- Claim C10 (implicit): `execute_cmd` never inspects the exit status —
its result is invariant under changing the status — so a command that
terminates with non-zero status but empty stderr yields `Ok` with its
stdout, not an error. -/
theorem execute_cmd_ignores_status (o : ProcessOutput) :
    (∀ s : Int, execute_cmd { o with status := s } = execute_cmd o) ∧
    (o.status ≠ 0 → o.stderr = "" → execute_cmd o = Except.ok o.stdout) := by
  refine ⟨fun s => rfl, fun _ hs => ?_⟩
  by_cases ht : o.stdout = "" <;> simp [execute_cmd, hs, ht]

/-- Witness for claim C10 at a concrete output with status 1 and empty
stderr. -/
theorem execute_cmd_ignores_status_witness :
    ({ status := 1, stdout := "out", stderr := "" } : ProcessOutput).status ≠ 0 ∧
      execute_cmd { status := 1, stdout := "out", stderr := "" } = Except.ok "out" :=
  ⟨by decide, (execute_cmd_ignores_status _).2 (by decide) rfl⟩

/-- Claim C8 as stated is false: with the active theme name absent from
the catalog but no theme recorded in the session, `theme()` falls back
to `Theme::Dark` without logging any warning — the warning sits inside
`if let Some(theme) = &self.session.theme_selected`. -/
theorem theme_warning_counterexample :
    ¬ (∀ a : Application,
        lookupTheme a.state.ui.themes a.state.ui.current_theme = none →
        Application.theme a = (Theme.Dark, true)) := by
  intro h
  have hl : lookupTheme default_themes "nonexistent" = none := by decide
  have h8 := h appC8 hl
  simp [Application.theme, appC8, hl] at h8

/-- Claim C8 (amended): for every application state whose current theme
name is absent from the theme catalog, `theme()` returns the fixed
fallback theme `Theme::Dark`, and it logs a warning exactly when the
session records a selected theme; the function is total, so it never
panics or errors. -/
theorem theme_fallback (a : Application)
    (h : lookupTheme a.state.ui.themes a.state.ui.current_theme = none) :
    Application.theme a = (Theme.Dark, a.session.theme_selected.isSome) := by
  simp [Application.theme, h]

/-- Witness for the amended claim C8 at a concrete state whose session
has a selected theme, so the warning is logged. -/
theorem theme_fallback_witness :
    lookupTheme appC8w.state.ui.themes appC8w.state.ui.current_theme = none ∧
      Application.theme appC8w = (Theme.Dark, true) :=
  ⟨by decide, theme_fallback appC8w (by decide)⟩

/-- The flag-accumulating scan of `exit_application`, run from an
arbitrary starting pair of flags. -/
theorem exitFlags_foldl (ws : List (Nat × WindowInfo)) :
    ∀ m a : Bool,
      ws.foldl
        (fun acc e =>
          if e.2.is_closed = false then
            (if e.2.window_type = ApplicationWindow.Root then false else acc.1, false)
          else acc)
        (m, a) = (m && noOpenRootB ws, a && allClosedB ws) := by
  induction ws with
  | nil => intro m a; simp [noOpenRootB, allClosedB]
  | cons e t ih =>
    intro m a
    rw [List.foldl_cons]
    by_cases hc : e.2.is_closed = false
    · have h1 : (if e.2.is_closed = false then
            (if e.2.window_type = ApplicationWindow.Root then false else (m, a).1, false)
          else (m, a)) = ((false : Bool), (false : Bool)) := by
        rw [if_pos hc, if_pos (applicationWindow_eq_Root e.2.window_type)]
      have h2 : noOpenRootB (e :: t) = false := by simp [noOpenRootB, hc]
      have h3 : allClosedB (e :: t) = false := by simp [allClosedB, hc]
      rw [h1, ih, h2, h3]
      simp
    · have h1 : (if e.2.is_closed = false then
            (if e.2.window_type = ApplicationWindow.Root then false else (m, a).1, false)
          else (m, a)) = (m, a) := by
        rw [if_neg hc]
      have hc' : e.2.is_closed = true := by
        cases h : e.2.is_closed
        · exact absurd h hc
        · rfl
      have h2 : noOpenRootB (e :: t) = noOpenRootB t := by simp [noOpenRootB, hc']
      have h3 : allClosedB (e :: t) = allClosedB t := by simp [allClosedB, hc']
      rw [h1, ih, h2, h3]

/-- `exit_application`'s scan computes exactly the two predicates the
spec names: `(main_window_closed, all_closed)`. -/
theorem exitFlags_spec (ws : List (Nat × WindowInfo)) :
    exitFlags ws = (noOpenRootB ws, allClosedB ws) := by
  unfold exitFlags
  rw [exitFlags_foldl]
  simp

/-- `allClosedB` decides `allClosed`. -/
theorem allClosedB_iff (ws : List (Nat × WindowInfo)) :
    allClosedB ws = true ↔ allClosed ws := by
  simp [allClosedB, allClosed, List.all_eq_true]

/-- `noOpenRootB` decides `noOpenRoot`. -/
theorem noOpenRootB_iff (ws : List (Nat × WindowInfo)) :
    noOpenRootB ws = true ↔ noOpenRoot ws := by
  simp [noOpenRootB, noOpenRoot, List.all_eq_true]

/-- `exit_application` emits the save-and-terminate effects exactly when
the spec's condition holds: all entries closed, or no non-closed
Root-kind entry. -/
theorem exit_application_eq_iff (sess : ApplicationSession) (ws : List (Nat × WindowInfo)) :
    exit_application sess ws = [Effect.saveSession sess, Effect.exitProcess] ↔
      (allClosed ws ∨ noOpenRoot ws) := by
  constructor
  · intro heq
    by_contra hnot
    push_neg at hnot
    have hb1 : allClosedB ws = false := by
      cases hh : allClosedB ws
      · rfl
      · exact absurd ((allClosedB_iff ws).mp hh) hnot.1
    have hb2 : noOpenRootB ws = false := by
      cases hh : noOpenRootB ws
      · rfl
      · exact absurd ((noOpenRootB_iff ws).mp hh) hnot.2
    simp [exit_application, exitFlags_spec, hb1, hb2] at heq
  · intro hor
    have hb : (allClosedB ws || noOpenRootB ws) = true := by
      rcases hor with h | h
      · simp [(allClosedB_iff ws).mpr h]
      · simp [(noOpenRootB_iff ws).mpr h]
    simp [exit_application, exitFlags_spec, hb]

/-- Claim C1: Exit policy. After `close_window(id)` marks the entry for
`id` closed, the returned task chains a toolkit close request with an
`ExitApplication` message, whose handler runs `exit_application` on the
post-close state; that check saves the session and terminates exactly
when every registry entry is closed or no non-closed Root-kind entry
remains. In particular, closing the Root window (the only non-closed
Root entry) always exits regardless of the other entries' open state,
and closing a non-Root window while a Root entry remains open does not
exit — the last clause is vacuous here because the registered
`ApplicationWindow` enum has the single variant `Root`. -/
theorem close_exit_policy (a : Application) (id : Nat) :
    ((close_window a id).2 =
      [Effect.windowCloseRequest id,
       Effect.message (AppMessage.System SystemMessage.ExitApplication)]) ∧
    (Application.update (close_window a id).1
        (AppMessage.System SystemMessage.ExitApplication) =
      ((close_window a id).1,
       exit_application a.session (markClosed a.state.ui.windows id))) ∧
    (exit_application a.session (markClosed a.state.ui.windows id) =
        [Effect.saveSession a.session, Effect.exitProcess] ↔
      (allClosed (markClosed a.state.ui.windows id) ∨
       noOpenRoot (markClosed a.state.ui.windows id))) ∧
    ((∃ info, (id, info) ∈ a.state.ui.windows ∧
        info.window_type = ApplicationWindow.Root) →
     (∀ e ∈ a.state.ui.windows, e.2.window_type = ApplicationWindow.Root →
        e.2.is_closed = false → e.1 = id) →
      exit_application a.session (markClosed a.state.ui.windows id) =
        [Effect.saveSession a.session, Effect.exitProcess]) ∧
    ((∃ info, (id, info) ∈ a.state.ui.windows ∧
        info.window_type ≠ ApplicationWindow.Root) →
     (∃ e ∈ markClosed a.state.ui.windows id,
        e.2.window_type = ApplicationWindow.Root ∧ e.2.is_closed = false) →
      exit_application a.session (markClosed a.state.ui.windows id) = []) := by
  refine ⟨rfl, rfl, exit_application_eq_iff a.session (markClosed a.state.ui.windows id),
    ?_, ?_⟩
  · intro _ hothers
    apply (exit_application_eq_iff _ _).mpr
    right
    intro e' he' hroot
    obtain ⟨e, he, heq⟩ := List.mem_map.mp he'
    by_cases hid : e.1 = id
    · rw [if_pos hid] at heq
      rw [← heq]
    · rw [if_neg hid] at heq
      cases hcl : e.2.is_closed
      · exact absurd (hothers e he (heq ▸ hroot) hcl) hid
      · rw [← heq]
        exact hcl
  · rintro ⟨info, _, hne⟩ _
    exact absurd (applicationWindow_eq_Root info.window_type) hne

/-- Witness for claim C1's "closing the Root window exits" conjunct at a
concrete state with one non-closed Root window. -/
theorem close_exit_policy_witness :
    ((∃ info, ((0 : Nat), info) ∈ appC1.state.ui.windows ∧
        info.window_type = ApplicationWindow.Root) ∧
     (∀ e ∈ appC1.state.ui.windows, e.2.window_type = ApplicationWindow.Root →
        e.2.is_closed = false → e.1 = 0)) ∧
      exit_application appC1.session (markClosed appC1.state.ui.windows 0) =
        [Effect.saveSession appC1.session, Effect.exitProcess] :=
  ⟨⟨⟨{ window_type := ApplicationWindow.Root, is_closed := false }, by decide, rfl⟩,
    by decide⟩,
   (close_exit_policy appC1 0).2.2.2.1
     ⟨{ window_type := ApplicationWindow.Root, is_closed := false }, by decide, rfl⟩
     (by decide)⟩

/-- Any two window kinds are equal: the enum has a single variant. -/
theorem applicationWindow_subsingleton (v w : ApplicationWindow) : v = w := by
  cases v; cases w; rfl

/-- Claim C2: Singleton-window (toggle-close) policy. For every state
and kind `k`: if the registry holds a non-closed entry of kind `k`,
`update` on `Window(Open(k))` leaves the state unchanged (inserting no
entry) and emits a `Close` message for a non-closed entry of kind `k`'s
identifier; otherwise it opens a new window with `k`'s static default
size and position and inserts a new non-closed entry keyed by the
freshly assigned identifier. -/
theorem open_singleton_policy (a : Application) (k : ApplicationWindow) :
    ((∃ e ∈ a.state.ui.windows, e.2.window_type = k ∧ e.2.is_closed = false) →
      ∃ id info, (id, info) ∈ a.state.ui.windows ∧ info.window_type = k ∧
        info.is_closed = false ∧
        Application.update a (AppMessage.Window (WindowMessage.Open k)) =
          (a, [Effect.message (AppMessage.Window (WindowMessage.Close id))])) ∧
    ((∀ e ∈ a.state.ui.windows, e.2.window_type = k → e.2.is_closed = true) →
      Application.update a (AppMessage.Window (WindowMessage.Open k)) =
        ({ a with
            state.ui.windows :=
              insertWindow a.state.ui.windows a.state.ui.nextId
                { window_type := k, is_closed := false }
            state.ui.nextId := a.state.ui.nextId + 1 },
         [Effect.windowOpenRequest k k.default_size k.default_position])) := by
  constructor
  · rintro ⟨e, he, htyp, hop⟩
    cases hfind : a.state.ui.windows.find? (isOpenOf k) with
    | none =>
        exfalso
        rw [List.find?_eq_none] at hfind
        exact hfind e he (by simp [isOpenOf, htyp, hop])
    | some e' =>
        have hmem' := List.mem_of_find?_eq_some hfind
        have hpred := List.find?_some hfind
        simp only [isOpenOf, Bool.and_eq_true, Bool.not_eq_true'] at hpred
        exact ⟨e'.1, e'.2, hmem', applicationWindow_subsingleton _ _, hpred.2,
          by simp [Application.update, findOpen, hfind]⟩
  · intro h
    have hfind : a.state.ui.windows.find? (isOpenOf k) = none := by
      rw [List.find?_eq_none]
      intro e he
      have hcl : e.2.is_closed = true := h e he (applicationWindow_subsingleton _ _)
      simp [isOpenOf, hcl]
    simp [Application.update, findOpen, hfind, invoke_window]

/-- Witness for claim C2's toggle-close conjunct at a concrete state
with one non-closed Root window. -/
theorem open_singleton_policy_witness :
    (∃ e ∈ appC2.state.ui.windows, e.2.window_type = ApplicationWindow.Root ∧
        e.2.is_closed = false) ∧
      ∃ id info, (id, info) ∈ appC2.state.ui.windows ∧
        info.window_type = ApplicationWindow.Root ∧ info.is_closed = false ∧
        Application.update appC2 (AppMessage.Window (WindowMessage.Open ApplicationWindow.Root)) =
          (appC2, [Effect.message (AppMessage.Window (WindowMessage.Close id))]) :=
  ⟨⟨(0, { window_type := ApplicationWindow.Root, is_closed := false }), by decide, rfl, rfl⟩,
   (open_singleton_policy appC2 ApplicationWindow.Root).1
     ⟨(0, { window_type := ApplicationWindow.Root, is_closed := false }), by decide, rfl, rfl⟩⟩

/-- Head expansion of `openCount`. -/
theorem openCount_cons (x : Nat × WindowInfo) (l : List (Nat × WindowInfo))
    (k : ApplicationWindow) :
    openCount (x :: l) k = (if isOpenOf k x = true then 1 else 0) + openCount l k := by
  by_cases hx : isOpenOf k x = true
  · simp [openCount, List.filter_cons, hx, Nat.add_comm]
  · simp [openCount, List.filter_cons, hx]

/-- Marking an entry closed never increases the number of non-closed
entries of any kind. -/
theorem openCount_markClosed_le (ws : List (Nat × WindowInfo)) (id : Nat)
    (k : ApplicationWindow) :
    openCount (markClosed ws id) k ≤ openCount ws k := by
  induction ws with
  | nil => simp [markClosed, openCount]
  | cons e t ih =>
    have hm : markClosed (e :: t) id =
        (if e.1 = id then (e.1, { e.2 with is_closed := true }) else e) :: markClosed t id :=
      rfl
    rw [hm, openCount_cons, openCount_cons]
    by_cases h : e.1 = id
    · rw [if_pos h]
      have hx : isOpenOf k (e.1, { e.2 with is_closed := true }) = false := by
        simp [isOpenOf]
      rw [hx]
      cases hy : isOpenOf k e <;> simp <;> omega
    · rw [if_neg h]
      cases hy : isOpenOf k e <;> simp [hy] <;> omega

/-- `openCount` distributes over append. -/
theorem openCount_append (xs ys : List (Nat × WindowInfo)) (k : ApplicationWindow) :
    openCount (xs ++ ys) k = openCount xs k + openCount ys k := by
  simp [openCount, List.filter_append]

/-- When the `Open` handler's lookup finds no non-closed entry of kind
`k`, there are zero non-closed entries of kind `k`. -/
theorem findOpen_none_openCount_zero (ws : List (Nat × WindowInfo))
    (k : ApplicationWindow) (h : findOpen ws k = none) : openCount ws k = 0 := by
  have h' : ws.find? (isOpenOf k) = none := by
    cases hf : ws.find? (isOpenOf k)
    · rfl
    · rw [findOpen, hf] at h
      simp at h
  rw [List.find?_eq_none] at h'
  have hnil : ws.filter (isOpenOf k) = [] := by
    rw [List.filter_eq_nil_iff]
    exact h'
  simp [openCount, hnil]

/-- `markClosed` preserves the keys of the registry. -/
theorem mem_markClosed_key (ws : List (Nat × WindowInfo)) (id : Nat) :
    ∀ e ∈ markClosed ws id, ∃ e₀ ∈ ws, e.1 = e₀.1 := by
  intro e he
  obtain ⟨e₀, h₀, heq⟩ := List.mem_map.mp he
  refine ⟨e₀, h₀, ?_⟩
  by_cases h : e₀.1 = id
  · rw [if_pos h] at heq
    rw [← heq, h]
  · rw [if_neg h] at heq
    rw [← heq]

/-- Inserting under a key bound by no existing entry appends. -/
theorem insertWindow_fresh (ws : List (Nat × WindowInfo)) (id : Nat) (info : WindowInfo)
    (h : ∀ e ∈ ws, e.1 ≠ id) : insertWindow ws id info = ws ++ [(id, info)] := by
  unfold insertWindow
  have ha : ws.any (fun e => decide (e.1 = id)) = false := by
    cases hb : ws.any (fun e => decide (e.1 = id))
    · rfl
    · rw [List.any_eq_true] at hb
      obtain ⟨e, he, hp⟩ := hb
      simp at hp
      exact absurd hp (h e he)
  simp [ha]

/-- One dispatch step other than `InitializeMainWindow` preserves the
registry invariant together with the key bound that makes fresh
identifiers genuinely new. -/
theorem inv_step (a : Application) (m : AppMessage)
    (hm : m ≠ AppMessage.Window WindowMessage.InitializeMainWindow)
    (h1 : ∀ k, openCount a.state.ui.windows k ≤ 1)
    (h2 : ∀ e ∈ a.state.ui.windows, e.1 < a.state.ui.nextId) :
    (∀ k, openCount (Application.update a m).1.state.ui.windows k ≤ 1) ∧
    (∀ e ∈ (Application.update a m).1.state.ui.windows,
        e.1 < (Application.update a m).1.state.ui.nextId) := by
  cases m with
  | Window wm =>
    cases wm with
    | Close id =>
      constructor
      · intro k
        show openCount (markClosed a.state.ui.windows id) k ≤ 1
        exact le_trans (openCount_markClosed_le _ _ _) (h1 k)
      · intro e he
        obtain ⟨e₀, h₀, heq⟩ := mem_markClosed_key a.state.ui.windows id e he
        show e.1 < a.state.ui.nextId
        rw [heq]
        exact h2 e₀ h₀
    | Open w =>
      cases hfind : findOpen a.state.ui.windows w with
      | some i =>
        have hred : (Application.update a (AppMessage.Window (WindowMessage.Open w))).1 = a := by
          simp [Application.update, hfind]
        rw [hred]
        exact ⟨h1, h2⟩
      | none =>
        have hfresh : ∀ e ∈ a.state.ui.windows, e.1 ≠ a.state.ui.nextId :=
          fun e he => Nat.ne_of_lt (h2 e he)
        have hins : insertWindow a.state.ui.windows a.state.ui.nextId
              { window_type := w, is_closed := false }
            = a.state.ui.windows ++
              [(a.state.ui.nextId, { window_type := w, is_closed := false })] :=
          insertWindow_fresh _ _ _ hfresh
        constructor
        · intro k
          have hshow : (Application.update a (AppMessage.Window (WindowMessage.Open w))).1.state.ui.windows
              = insertWindow a.state.ui.windows a.state.ui.nextId
                  { window_type := w, is_closed := false } := by
            simp [Application.update, hfind, invoke_window]
          rw [hshow, hins, openCount_append]
          have hzero : openCount a.state.ui.windows w = 0 :=
            findOpen_none_openCount_zero _ _ hfind
          rw [applicationWindow_subsingleton k w, hzero]
          simp [openCount, isOpenOf]
        · intro e he
          have hshow : (Application.update a (AppMessage.Window (WindowMessage.Open w))).1.state.ui.windows
              = insertWindow a.state.ui.windows a.state.ui.nextId
                  { window_type := w, is_closed := false } := by
            simp [Application.update, hfind, invoke_window]
          rw [hshow, hins] at he
          have hnext : (Application.update a (AppMessage.Window (WindowMessage.Open w))).1.state.ui.nextId
              = a.state.ui.nextId + 1 := by
            simp [Application.update, hfind, invoke_window]
          rw [hnext]
          rcases List.mem_append.mp he with h | h
          · exact Nat.lt_succ_of_lt (h2 e h)
          · rw [List.mem_singleton] at h
            rw [h]
            exact Nat.lt_succ_self _
    | InitializeMainWindow => exact absurd rfl hm
  | System sm =>
    cases sm with
    | ExecuteCommand c args => exact ⟨h1, h2⟩
    | ExitApplication => exact ⟨h1, h2⟩
  | Feature fm =>
    cases fm with
    | Root rm => cases rm

/-- Claim C3 as stated is false: the `InitializeMainWindow` handler
calls `invoke_window` unconditionally, with no singleton check, so
dispatching it twice yields two non-closed Root entries. -/
theorem registry_invariant_counterexample :
    ¬ (∀ a : Application, Reachable a → ∀ k, openCount a.state.ui.windows k ≤ 1) := by
  intro h
  have hr : Reachable (Application.update (Application.update
      (initialApp ApplicationSession.default)
      (AppMessage.Window WindowMessage.InitializeMainWindow)).1
      (AppMessage.Window WindowMessage.InitializeMainWindow)).1 :=
    Reachable.step _ (Reachable.step _ (Reachable.init ApplicationSession.default))
  have hb := h _ hr ApplicationWindow.Root
  have htwo : openCount (Application.update (Application.update
      (initialApp ApplicationSession.default)
      (AppMessage.Window WindowMessage.InitializeMainWindow)).1
      (AppMessage.Window WindowMessage.InitializeMainWindow)).1.state.ui.windows
      ApplicationWindow.Root = 2 := rfl
  omega

/-- Claim C3 (amended): along runs as the program actually drives them —
`InitializeMainWindow` dispatched exactly once, as the first message,
every later message being an `Open`/`Close`/`System`/`Feature` dispatch —
every reachable state has at most one non-closed registry entry per
window kind; the `Open` handler enforces the bound before opening a
duplicate. -/
theorem registry_invariant_run (a : Application) (h : ReachableRun a) :
    ∀ k, openCount a.state.ui.windows k ≤ 1 := by
  suffices hinv : (∀ k, openCount a.state.ui.windows k ≤ 1) ∧
      (∀ e ∈ a.state.ui.windows, e.1 < a.state.ui.nextId) from hinv.1
  induction h with
  | start sess =>
    constructor
    · intro k
      simp [initialApp, ApplicationState.default, UiState.default, openCount]
    · intro e he
      simp [initialApp, ApplicationState.default, UiState.default] at he
  | started sess =>
    constructor
    · intro k
      have hred : (Application.update (initialApp sess)
          (AppMessage.Window WindowMessage.InitializeMainWindow)).1.state.ui.windows
          = [(0, { window_type := ApplicationWindow.Root, is_closed := false })] := rfl
      rw [hred, applicationWindow_subsingleton k ApplicationWindow.Root]
      decide
    · intro e he
      have he' : e ∈ [((0 : Nat), ({ window_type := ApplicationWindow.Root, is_closed := false } : WindowInfo))] := he
      rw [List.mem_singleton] at he'
      show e.1 < 1
      rw [he']
      exact Nat.lt_succ_self 0
  | step m hm hr ih => exact inv_step _ m hm ih.1 ih.2

/-- Witness for the amended claim C3 at the state reached right after
the startup `InitializeMainWindow` dispatch. -/
theorem registry_invariant_run_witness :
    ReachableRun (Application.update (initialApp ApplicationSession.default)
        (AppMessage.Window WindowMessage.InitializeMainWindow)).1 ∧
      ∀ k, openCount (Application.update (initialApp ApplicationSession.default)
          (AppMessage.Window WindowMessage.InitializeMainWindow)).1.state.ui.windows k ≤ 1 :=
  ⟨ReachableRun.started ApplicationSession.default,
   registry_invariant_run _ (ReachableRun.started ApplicationSession.default)⟩
